import Mathlib

/-!
Verification development for the api-usage repository: three Python command
line scripts (upload_paper.py, upload_directory.py, get_paper_extracts.py)
that authenticate against an identity endpoint and call a remote document
processing API.  The scripts are shallowly embedded below: HTTP responses are
explicit values, JSON values are an inductive type, Python exceptions are an
error type threaded through Except, and console prints that matter to the
stated properties are recorded as events.
-/

namespace ApiUsage

/-- JSON values as parsed by Python's json module / httpx response.json(). -/
inductive Json where
  | null
  | bool (b : Bool)
  | num (n : Int)
  | str (s : String)
  | arr (xs : List Json)
  | obj (kvs : List (String × Json))

/-- Python truthiness of a JSON value: None, False, 0, empty string, empty
list and empty dict are falsy, everything else truthy. -/
def truthy : Json → Bool
  | .null => false
  | .bool b => b
  | .num n => decide (n ≠ 0)
  | .str s => decide (s ≠ "")
  | .arr xs => !xs.isEmpty
  | .obj kvs => !kvs.isEmpty

/-- First-match lookup in an association list of JSON object fields
(parsed Python dicts have unique keys). -/
def jlookup : List (String × Json) → String → Option Json
  | [], _ => none
  | (k2, v) :: rest, k => if k2 = k then some v else jlookup rest k

/-- Python exceptions raised by the scripts, as values. -/
inductive PyError where
  | httpStatusError (status : Nat) (body : String)
  | valueError (msg : String)
  | fileNotFoundError (msg : String)
  | keyError (key : String)
  | typeError (msg : String)
  | attributeError (msg : String)
  | jsonDecodeError
  | transportError (msg : String)
deriving DecidableEq

/-- Python `d.get(k)`: value of key k (None when absent); AttributeError when
the receiver is not a dict. -/
def py_dict_get (j : Json) (k : String) : Except PyError Json :=
  match j with
  | .obj kvs => .ok ((jlookup kvs k).getD Json.null)
  | _ => .error (.attributeError "get")

/-- Python `d.get(k, default)`: value of key k, or the default when the key is
absent; AttributeError when the receiver is not a dict. -/
def py_dict_getD (j : Json) (k : String) (d : Json) : Except PyError Json :=
  match j with
  | .obj kvs => .ok ((jlookup kvs k).getD d)
  | _ => .error (.attributeError "get")

/-- Python `d[k]` with a string key: KeyError when the dict lacks the key,
TypeError when the receiver is not a dict. -/
def py_index (j : Json) (k : String) : Except PyError Json :=
  match j with
  | .obj kvs =>
    match jlookup kvs k with
    | some v => .ok v
    | none => .error (.keyError k)
  | _ => .error (.typeError "not subscriptable by str")

/-- Whether a JSON value is usable as a Python dict key (lists and dicts are
unhashable). -/
def hashable : Json → Bool
  | .arr _ => false
  | .obj _ => false
  | _ => true

/-- Python `==` on hashable JSON scalars, used for dict-key comparison.
Values of different scalar constructors compare unequal; lists and dicts
(never valid dict keys) compare unequal to everything. -/
def scalarEq : Json → Json → Bool
  | .null, .null => true
  | .bool a, .bool b => decide (a = b)
  | .num a, .num b => decide (a = b)
  | .str a, .str b => decide (a = b)
  | _, _ => false

/-- Python `t == someString` where the right-hand side is a string literal:
true exactly when t is that string. -/
def isStrVal (t : Json) (s : String) : Bool :=
  match t with
  | .str x => decide (x = s)
  | _ => false

/-- An HTTP response as observed by the scripts: status code, raw body text,
and the result of parsing the body as JSON (none when parsing would fail). -/
structure HttpResponse where
  status : Nat
  text : String
  jsonBody : Option Json

/-- httpx `response.json()`: the parsed body, or a decode error. -/
def response_json (r : HttpResponse) : Except PyError Json :=
  match r.jsonBody with
  | some j => .ok j
  | none => .error .jsonDecodeError

/-- httpx `response.raise_for_status()`: raises HTTPStatusError exactly when
the status code is outside the 2xx success range. -/
def raise_for_status (r : HttpResponse) : Except PyError Unit :=
  if 200 ≤ r.status ∧ r.status ≤ 299 then .ok () else
    .error (.httpStatusError r.status r.text)

/-- Outcome of one httpx.post call: either a transport-level exception
(timeout, connection failure) or a response. -/
inductive Transport where
  | exn (msg : String)
  | resp (r : HttpResponse)

/-- Console events of the authenticator that the specification talks about. -/
inductive AuthEvent where
  | start (email : String)
  | failPrint (status : Nat) (body : String)
  | okPrint

/-- Tail of get_jwt_token after the status check: parse the body, read the
access_token field, raise ValueError when it is falsy, else return it.
Identical in upload_paper.py, upload_directory.py and get_paper_extracts.py. -/
def auth_finish (log : List AuthEvent) (resp : HttpResponse) :
    List AuthEvent × Except PyError Json :=
  match response_json resp with
  | .error e => (log, .error e)
  | .ok result =>
    match py_dict_get result "access_token" with
    | .error e => (log, .error e)
    | .ok tok =>
      if truthy tok then (log ++ [AuthEvent.okPrint], .ok tok)
      else (log, .error (.valueError "No access token in response"))

/-- get_jwt_token (identical in all three scripts): print a start line; on a
non-200 status print the status and raw body and call raise_for_status (which
raises only outside 2xx); then parse the JSON body and extract the
access_token field.  The response to the password-grant POST is an input. -/
def get_jwt_token (email : String) (resp : HttpResponse) :
    List AuthEvent × Except PyError Json :=
  let log0 := [AuthEvent.start email]
  if resp.status = 200 then
    auth_finish log0 resp
  else
    let log1 := log0 ++ [AuthEvent.failPrint resp.status resp.text]
    match raise_for_status resp with
    | .error e => (log1, .error e)
    | .ok _ => auth_finish log1 resp

/-- The shape checks performed by the success path of upload_paper.py's
upload_paper_with_jwt after a 2xx response: parse the body and print
result's data.paper_id and data.status (KeyError/TypeError when absent). -/
def upload_result_view (r : HttpResponse) : Except PyError Json := do
  let result ← response_json r
  let d ← py_index result "data"
  let _pid ← py_index d "paper_id"
  let _st ← py_index d "status"
  pure result

/-- upload_paper.py upload_paper_with_jwt: raises FileNotFoundError before
opening the file or posting when the path does not exist; posts the multipart
request; on a status outside 200/201 prints and calls raise_for_status; then
parses and prints the result.  First component counts httpx.post calls. -/
def upload_paper_with_jwt (pdfExists : Bool) (pdfPath : String)
    (tr : Transport) : Nat × Except PyError Json :=
  if pdfExists = false then
    (0, .error (.fileNotFoundError ("PDF not found: " ++ pdfPath)))
  else
    match tr with
    | .exn m => (1, .error (.transportError m))
    | .resp r =>
      if r.status = 200 ∨ r.status = 201 then (1, upload_result_view r)
      else
        match raise_for_status r with
        | .error e => (1, .error e)
        | .ok _ => (1, upload_result_view r)

/-- The four environment variables read by every script (os.getenv: none when
unset). -/
structure EnvConfig where
  supabase_url : Option String
  supabase_anon_key : Option String
  email : Option String
  password : Option String

/-- Python truthiness of an os.getenv result. -/
def optTruthy : Option String → Bool
  | none => false
  | some s => decide (s ≠ "")

/-- The missing-variable list computed by each script's main. -/
def missing_vars (c : EnvConfig) : List String :=
  (if optTruthy c.supabase_url then [] else ["SUPABASE_URL"]) ++
  (if optTruthy c.supabase_anon_key then [] else ["SUPABASE_ANON_KEY"]) ++
  (if optTruthy c.email then [] else ["OSHIMA_EMAIL"]) ++
  (if optTruthy c.password then [] else ["OSHIMA_PASSWORD"])

/-- Process exit status of upload_paper.py's main: 1 when configuration is
missing or no PDF path argument is given; otherwise authenticate and upload
inside a try block whose except clauses print the error and fall through, so
the process exits 0 whether the upload succeeded or raised. -/
def upload_paper_main_exit (c : EnvConfig) (argc : Nat)
    (authResp : HttpResponse) (pdfPath : String) (pdfExists : Bool)
    (tr : Transport) : Nat :=
  if missing_vars c ≠ [] then 1
  else if argc < 2 then 1
  else
    match (get_jwt_token (c.email.getD "") authResp).2 with
    | .error _ => 0
    | .ok _tok =>
      match (upload_paper_with_jwt pdfExists pdfPath tr).2 with
      | .ok _ => 0
      | .error _ => 0

/-- upload_directory.py upload_paper_with_jwt (the batch variant): a missing
file prints a warning and returns None without posting; everything from the
file open through the status check and body parse sits in a try block whose
except clause returns None, and a status outside 200/201 also returns None;
otherwise the parsed body is returned.  First component counts httpx.post
calls. -/
def upload_paper_with_jwt_batch (pdfExists : Bool) (tr : Transport) :
    Nat × Option Json :=
  if pdfExists = false then (0, none)
  else
    match tr with
    | .exn _ => (1, none)
    | .resp r =>
      if r.status = 200 ∨ r.status = 201 then
        match r.jsonBody with
        | some result => (1, some result)
        | none => (1, none)
      else (1, none)

/-- One file of the enumerated (sorted, pattern-matched) directory snapshot:
its filename, whether it still exists when uploaded, and the outcome of the
post issued for it. -/
structure FileSpec where
  name : String
  pdfExists : Bool
  transport : Transport

/-- The per-file result value the batch loop branches on. -/
def batch_outcome (f : FileSpec) : Option Json :=
  (upload_paper_with_jwt_batch f.pdfExists f.transport).2

/-- The lookups the batch loop performs on a truthy result before recording a
success: result's data.paper_id (printed and stored) and data.status
(printed).  Returns the paper_id. -/
def batch_success_view (j : Json) : Except PyError Json := do
  let d ← py_index j "data"
  let pid ← py_index d "paper_id"
  let _st ← py_index d "status"
  pure pid

/-- One entry of the results["uploads"] list. -/
structure UploadRecord where
  filename : String
  paper_id : Option Json
  status : String

/-- Mutable bookkeeping of the batch loop, plus instrumentation the
specification talks about: the number of upload calls issued and the
durations of the time.sleep calls performed, in order. -/
structure BatchState where
  success : Nat
  failed : Nat
  uploads : List UploadRecord
  attempts : Nat
  sleeps : List Rat

/-- The inter-upload pause: after a file that is not the last, sleep for the
configured delay. -/
def addSleep (delay : Rat) (rest : List FileSpec) (st : BatchState) :
    BatchState :=
  if rest.isEmpty then st else { st with sleeps := st.sleeps ++ [delay] }

/-- The for loop of upload_directory: call the uploader for each file, record
a success (reading data.paper_id and data.status from the truthy result,
which raises an uncaught KeyError/TypeError when absent) or a failure, and
sleep between consecutive files. -/
def upload_loop (delay : Rat) : List FileSpec → BatchState →
    Except PyError BatchState
  | [], st => .ok st
  | f :: rest, st =>
    let st1 := { st with attempts := st.attempts + 1 }
    match batch_outcome f with
    | some j =>
      if truthy j then
        match batch_success_view j with
        | .error e => .error e
        | .ok pid =>
          upload_loop delay rest (addSleep delay rest
            { st1 with
              success := st1.success + 1
              uploads := st1.uploads ++ [⟨f.name, some pid, "success"⟩] })
      else
        upload_loop delay rest (addSleep delay rest
          { st1 with
            failed := st1.failed + 1
            uploads := st1.uploads ++ [⟨f.name, none, "failed"⟩] })
    | none =>
      upload_loop delay rest (addSleep delay rest
        { st1 with
          failed := st1.failed + 1
          uploads := st1.uploads ++ [⟨f.name, none, "failed"⟩] })

/-- The statistics dictionary returned by upload_directory. -/
structure BatchResult where
  total : Nat
  success : Nat
  failed : Nat
  uploads : List UploadRecord
  attempts : Nat
  sleeps : List Rat

/-- The default of upload_directory's delay parameter (delay: float = 1.0),
also the default used by main when no --delay flag is given. -/
def upload_directory_default_delay : Rat := 1

/-- upload_directory.py upload_directory: raise ValueError when the directory
is missing or not a directory; on an empty enumeration return zero counts;
otherwise run the loop over the sorted snapshot with total fixed upfront. -/
def upload_directory (directory : String) (dirExists isDir : Bool)
    (files : List FileSpec) (delay : Rat) : Except PyError BatchResult :=
  if dirExists = false then
    .error (.valueError ("Directory not found: " ++ directory))
  else if isDir = false then
    .error (.valueError ("Not a directory: " ++ directory))
  else if files.isEmpty then .ok ⟨0, 0, 0, [], 0, []⟩
  else
    match upload_loop delay files ⟨0, 0, [], 0, []⟩ with
    | .error e => .error e
    | .ok st =>
      .ok ⟨files.length, st.success, st.failed, st.uploads, st.attempts,
        st.sleeps⟩

/-- Process exit status of upload_directory.py's main: 1 when configuration
is missing or no directory argument is given; otherwise authenticate and run
the batch inside a try block; a completed batch with at least one failure
calls sys.exit(1); every raised exception is printed by an except clause and
falls through, so the process exits 0 in those cases. -/
def upload_directory_main_exit (c : EnvConfig) (argc : Nat)
    (authResp : HttpResponse) (directory : String) (dirExists isDir : Bool)
    (files : List FileSpec) (delay : Rat) : Nat :=
  if missing_vars c ≠ [] then 1
  else if argc < 2 then 1
  else
    match (get_jwt_token (c.email.getD "") authResp).2 with
    | .error _ => 0
    | .ok _tok =>
      match upload_directory directory dirExists isDir files delay with
      | .error _ => 0
      | .ok r => if r.failed > 0 then 1 else 0

/-- Whether the batch loop counts this file as a failure: the per-file
uploader returned None, or returned a falsy parsed body. -/
def file_failed (f : FileSpec) : Bool :=
  match batch_outcome f with
  | none => true
  | some j => !truthy j

/-- Whether the loop body for this file runs without raising: it raises only
when a truthy success body lacks the data/paper_id/status shape. -/
def HandledFile (f : FileSpec) : Bool :=
  match batch_outcome f with
  | none => true
  | some j =>
    if truthy j then
      match batch_success_view j with
      | .ok _ => true
      | .error _ => false
    else true

/-- Failure count the loop accumulates over a file list. -/
def countF : List FileSpec → Nat
  | [] => 0
  | f :: rest => (if file_failed f then 1 else 0) + countF rest

/-- Success count the loop accumulates over a file list. -/
def countS : List FileSpec → Nat
  | [] => 0
  | f :: rest => (if file_failed f then 0 else 1) + countS rest

/-- The uploads entry the loop records for a handled file. -/
def recordOf (f : FileSpec) : UploadRecord :=
  match batch_outcome f with
  | none => ⟨f.name, none, "failed"⟩
  | some j =>
    if truthy j then
      match batch_success_view j with
      | .ok pid => ⟨f.name, some pid, "success"⟩
      | .error _ => ⟨f.name, none, "failed"⟩
    else ⟨f.name, none, "failed"⟩

/-- get_paper_extracts.py get_paper_extracts: post the identifier list; on a
non-200 status print and call raise_for_status (which raises only outside
2xx); then return the parsed JSON body. -/
def get_paper_extracts (tr : Transport) : Except PyError Json :=
  match tr with
  | .exn m => .error (.transportError m)
  | .resp r =>
    if r.status = 200 then response_json r
    else
      match raise_for_status r with
      | .error e => .error e
      | .ok _ => response_json r

/-- Python len() on a JSON value: defined for strings, lists and dicts,
TypeError otherwise. -/
def py_len (j : Json) : Except PyError Nat :=
  match j with
  | .str s => .ok s.length
  | .arr xs => .ok xs.length
  | .obj kvs => .ok kvs.length
  | _ => .error (.typeError "object has no len")

/-- Python `text[:100] + "..."`: defined for strings; slicing or
concatenating other values with a string raises TypeError. -/
def py_truncate (j : Json) : Except PyError Json :=
  match j with
  | .str s => .ok (.str (String.mk (s.toList.take 100) ++ "..."))
  | _ => .error (.typeError "cannot concatenate to str")

/-- Python iteration `for x in j`: lists yield their elements, strings their
characters, dicts their keys; other values raise TypeError. -/
def py_iter (j : Json) : Except PyError (List Json) :=
  match j with
  | .arr xs => .ok xs
  | .str s => .ok (s.toList.map fun c => Json.str (String.mk [c]))
  | .obj kvs => .ok (kvs.map fun kv => Json.str kv.1)
  | _ => .error (.typeError "object is not iterable")

/-- The sample-text computation of print_paper_summary:
e.get(text_rephrased, e.get(text_verbatim, empty)) truncated to 100
characters when longer. -/
def sample_text (e : Json) : Except PyError Json := do
  let inner ← py_dict_getD e "text_verbatim" (Json.str "")
  let t ← py_dict_getD e "text_rephrased" inner
  let n ← py_len t
  if n > 100 then py_truncate t else pure t

/-- The list comprehension filtering elements by their type tag; indexing a
malformed element raises. -/
def filter_by_type (ty : String) : List Json → Except PyError (List Json)
  | [] => .ok []
  | e :: rest => do
    let t ← py_index e "type"
    let r ← filter_by_type ty rest
    pure (if isStrVal t ty then e :: r else r)

/-- Sample processing for the first claims shown (text only). -/
def claim_samples : List Json → Except PyError (List Json)
  | [] => .ok []
  | e :: rest => do
    let t ← sample_text e
    let r ← claim_samples rest
    pure (t :: r)

/-- Sample processing for the first evidence items shown: text plus the
points_to list read from evidence_data. -/
def evidence_samples : List Json → Except PyError (List (Json × Json))
  | [] => .ok []
  | e :: rest => do
    let t ← sample_text e
    let ed ← py_dict_getD e "evidence_data" (Json.obj [])
    let pts ← py_dict_getD ed "points_to" (Json.arr [])
    let r ← evidence_samples rest
    pure ((t, pts) :: r)

/-- What print_paper_summary prints for one paper, as data. -/
structure PaperSummary where
  title : Json
  pid : Json
  filename : Json
  claims : List Json
  evidence : List Json
  bboxCount : Nat
  claimSamples : List Json
  noClaims : Bool
  evidenceSamples : List (Json × Json)
  noEvidence : Bool

/-- get_paper_extracts.py print_paper_summary: read metadata/title/id and
filename, filter the paper's elements into claims and evidence, count
bounding boxes, and show up to three samples of each kind; empty claim or
evidence lists print a still-processing warning instead. -/
def print_paper_summary (paper : Json) (elems : List Json) :
    Except PyError PaperSummary := do
  let metadata ← py_dict_getD paper "metadata" (Json.obj [])
  let title ← py_dict_getD metadata "title" (Json.str "Untitled")
  let pid ← py_index paper "id"
  let filename ← py_dict_getD metadata "original_filename" (Json.str "N/A")
  let claims ← filter_by_type "claim" elems
  let evidence ← filter_by_type "evidence" elems
  let bboxes ← py_dict_getD paper "bboxes" (Json.arr [])
  let bboxCount ← py_len bboxes
  let csamples ← if claims.isEmpty then pure [] else
    claim_samples (claims.take 3)
  let esamples ← if evidence.isEmpty then pure [] else
    evidence_samples (evidence.take 3)
  pure ⟨title, pid, filename, claims, evidence, bboxCount, csamples,
    claims.isEmpty, esamples, evidence.isEmpty⟩

/-- Insert one element into the elements_by_paper dict under its key,
appending to an existing bucket or adding a new key at the end (Python dicts
preserve insertion order). -/
def group_insert : List (Json × List Json) → Json → Json →
    List (Json × List Json)
  | [], k, e => [(k, [e])]
  | (k2, es) :: rest, k, e =>
    if scalarEq k2 k then (k2, es ++ [e]) :: rest
    else (k2, es) :: group_insert rest k e

/-- Raw dict lookup in the grouping. -/
def glookup : List (Json × List Json) → Json → Option (List Json)
  | [], _ => none
  | (k2, es) :: rest, k => if scalarEq k2 k then some es else glookup rest k

/-- elements_by_paper.get(paper_id, empty list). -/
def group_lookup (g : List (Json × List Json)) (k : Json) : List Json :=
  (glookup g k).getD []

/-- One iteration of the grouping loop: read the element's paper_id tag (its
get raises on a non-dict element, an unhashable tag raises TypeError at the
membership test) and insert. -/
def group_step (acc : List (Json × List Json)) (e : Json) :
    Except PyError (List (Json × List Json)) :=
  match py_dict_get e "paper_id" with
  | .error err => .error err
  | .ok k =>
    if hashable k then .ok (group_insert acc k e)
    else .error (.typeError "unhashable type")

/-- The grouping loop of get_paper_extracts.py main over the flattened
elements list. -/
def group_elements : List Json → List (Json × List Json) →
    Except PyError (List (Json × List Json))
  | [], acc => .ok acc
  | e :: rest, acc =>
    match group_step acc e with
    | .error err => .error err
    | .ok acc2 => group_elements rest acc2

/-- The paper_id tag an element is grouped under: the value of its paper_id
field, None when the field is absent or the element is not a dict. -/
def tagOf (e : Json) : Json :=
  match e with
  | .obj kvs => (jlookup kvs "paper_id").getD Json.null
  | _ => Json.null

/-- Displayed output of the extract fetcher that the specification talks
about: the file write of the raw response, the no-papers notice, the stats
line, and one summary per paper. -/
inductive FetchEvent where
  | savedFile (name : String) (content : Json)
  | noPapers
  | stats (totalClaims totalEvidence : Json)
  | paperSummary (s : PaperSummary)

/-- The per-paper display loop of main: paper's id is read by subscript, the
grouped elements are fetched with a default of the empty list, and
print_paper_summary runs; the first raised exception aborts the loop, keeping
earlier summaries. -/
def summarize_papers (g : List (Json × List Json)) :
    List Json → List FetchEvent × Option PyError
  | [] => ([], none)
  | p :: ps =>
    match py_index p "id" with
    | .error e => ([], some e)
    | .ok pid =>
      if hashable pid = false then ([], some (.typeError "unhashable type"))
      else
        match print_paper_summary p (group_lookup g pid) with
        | .error e => ([], some e)
        | .ok s =>
          let (evs, err) := summarize_papers g ps
          (FetchEvent.paperSummary s :: evs, err)

/-- The display part of get_paper_extracts.py main after the file write: read
data/papers/elements/stats with dict defaults; a falsy papers list prints the
no-extracts notice; otherwise print the stats, group the elements and
summarize each paper. -/
def extracts_display (result : Json) : List FetchEvent × Option PyError :=
  match (do
      let data ← py_dict_getD result "data" (Json.obj [])
      let papers ← py_dict_getD data "papers" (Json.arr [])
      let elements ← py_dict_getD data "elements" (Json.arr [])
      let stats ← py_dict_getD data "stats" (Json.obj [])
      pure (papers, elements, stats) : Except PyError (Json × Json × Json))
    with
  | .error e => ([], some e)
  | .ok (papers, elements, stats) =>
    if truthy papers = false then ([FetchEvent.noPapers], none)
    else
      match (do
          let tc ← py_dict_getD stats "total_claims" (Json.num 0)
          let te ← py_dict_getD stats "total_evidence" (Json.num 0)
          let els ← py_iter elements
          let g ← group_elements els []
          let ps ← py_iter papers
          pure (tc, te, g, ps) :
          Except PyError (Json × Json × List (Json × List Json) × List Json))
        with
      | .error e => ([], some e)
      | .ok (tc, te, g, ps) =>
        let (evs, err) := summarize_papers g ps
        (FetchEvent.stats tc te :: evs, err)

/-- The try block of get_paper_extracts.py main after a successful fetch: the
full parsed response is dumped to paper_extracts.json first, then displayed;
a raised exception is printed by main and the events so far remain. -/
def extracts_main_core (result : Json) : List FetchEvent × Option PyError :=
  let (evs, err) := extracts_display result
  (FetchEvent.savedFile "paper_extracts.json" result :: evs, err)

/-- Fetch plus post-processing: a failed fetch produces no events. -/
def extracts_run (tr : Transport) : List FetchEvent × Option PyError :=
  match get_paper_extracts tr with
  | .error e => ([], some e)
  | .ok result => extracts_main_core result

/-! Helper lemmas about the authenticator. -/

lemma auth_finish_fst (log : List AuthEvent) (resp : HttpResponse) :
    ∃ t, (auth_finish log resp).1 = log ++ t := by
  unfold auth_finish
  split
  · exact ⟨[], by simp⟩
  · split
    · exact ⟨[], by simp⟩
    · split
      · exact ⟨[AuthEvent.okPrint], by simp⟩
      · exact ⟨[], by simp⟩

lemma auth_finish_ok_truthy (log : List AuthEvent) (resp : HttpResponse)
    (t : Json) (h : (auth_finish log resp).2 = .ok t) : truthy t = true := by
  unfold auth_finish at h
  split at h
  · simp at h
  · split at h
    · simp at h
    · split at h
      · simp_all
      · simp at h

lemma get_jwt_token_ok_truthy (email : String) (resp : HttpResponse)
    (t : Json) (h : (get_jwt_token email resp).2 = .ok t) :
    truthy t = true := by
  unfold get_jwt_token at h
  by_cases hs : resp.status = 200
  · simp only [hs, if_true] at h
    exact auth_finish_ok_truthy _ _ _ h
  · simp only [hs, if_false] at h
    rcases hr : raise_for_status resp with e | u
    · rw [hr] at h; simp at h
    · rw [hr] at h
      exact auth_finish_ok_truthy _ _ _ h

/-! Helper lemmas about the batch upload loop. -/

lemma countS_add_countF (l : List FileSpec) : countS l + countF l = l.length := by
  induction l with
  | nil => rfl
  | cons f rest ih =>
    by_cases h : file_failed f = true <;> simp [countS, countF, h] <;> omega

lemma handled_success_view (f : FileSpec) (j : Json)
    (hb : batch_outcome f = some j) (ht : truthy j = true)
    (hh : HandledFile f = true) : ∃ pid, batch_success_view j = .ok pid := by
  unfold HandledFile at hh
  rw [hb] at hh
  simp only [ht, if_true] at hh
  rcases hv : batch_success_view j with e | pid
  · rw [hv] at hh; simp at hh
  · exact ⟨pid, rfl⟩

lemma upload_loop_spec (delay : Rat) (files : List FileSpec) :
    ∀ st : BatchState, (∀ f ∈ files, HandledFile f = true) →
      upload_loop delay files st = .ok
        { success := st.success + countS files
          failed := st.failed + countF files
          uploads := st.uploads ++ files.map recordOf
          attempts := st.attempts + files.length
          sleeps := st.sleeps ++ List.replicate (files.length - 1) delay } := by
  induction files with
  | nil => intro st _; simp [upload_loop, countS, countF]
  | cons f rest ih =>
    intro st hall
    have h_f : HandledFile f = true := hall f (List.mem_cons_self f rest)
    have h_rest : ∀ g ∈ rest, HandledFile g = true :=
      fun g hg => hall g (List.mem_cons_of_mem f hg)
    have key : ∀ st2 : BatchState,
        upload_loop delay rest (addSleep delay rest st2) = .ok
          { success := st2.success + countS rest
            failed := st2.failed + countF rest
            uploads := st2.uploads ++ rest.map recordOf
            attempts := st2.attempts + rest.length
            sleeps := st2.sleeps ++ List.replicate rest.length delay } := by
      intro st2
      by_cases hre : rest = []
      · subst hre
        simp [upload_loop, addSleep, countS, countF]
      · have hne : rest.isEmpty = false := by
          simpa [List.isEmpty_iff] using hre
        have hpos : 0 < rest.length := List.length_pos.mpr hre
        rw [addSleep, if_neg (by simp [hne])]
        rw [ih _ h_rest]
        have hrep : (delay :: List.replicate (rest.length - 1) delay)
            = List.replicate rest.length delay := by
          rw [← List.replicate_succ]
          congr 1
          omega
        simp only [List.append_assoc, List.singleton_append, hrep]
    rcases hb : batch_outcome f with _ | j
    · have hff : file_failed f = true := by simp [file_failed, hb]
      have hrec : recordOf f = ⟨f.name, none, "failed"⟩ := by
        simp [recordOf, hb]
      simp only [upload_loop, hb]
      rw [key]
      simp only [Except.ok.injEq, BatchState.mk.injEq]
      repeat' apply And.intro
      all_goals ((try simp [countS, countF, hff, hrec]) <;> omega)
    · rcases ht : truthy j with _ | _
      · have hff : file_failed f = true := by simp [file_failed, hb, ht]
        have hrec : recordOf f = ⟨f.name, none, "failed"⟩ := by
          simp [recordOf, hb, ht]
        simp only [upload_loop, hb, ht]
        rw [key]
        simp only [Except.ok.injEq, BatchState.mk.injEq]
        repeat' apply And.intro
        all_goals ((try simp [countS, countF, hff, hrec]) <;> omega)
      · obtain ⟨pid, hv⟩ := handled_success_view f j hb ht h_f
        have hff : file_failed f = false := by simp [file_failed, hb, ht]
        have hrec : recordOf f = ⟨f.name, some pid, "success"⟩ := by
          simp [recordOf, hb, ht, hv]
        simp only [upload_loop, hb, ht, hv]
        rw [key]
        simp only [Except.ok.injEq, BatchState.mk.injEq]
        repeat' apply And.intro
        all_goals ((try simp [countS, countF, hff, hrec]) <;> omega)

/-! Helper lemmas about element grouping. -/

lemma scalarEq_sound {a b : Json} (h : scalarEq a b = true) : a = b := by
  cases a <;> cases b <;> simp_all [scalarEq]

lemma scalarEq_symm (a b : Json) : scalarEq a b = scalarEq b a := by
  cases a <;> cases b <;> simp [scalarEq, eq_comm]

lemma group_insert_lookup (acc : List (Json × List Json)) (ke e k : Json) :
    group_lookup (group_insert acc ke e) k =
      group_lookup acc k ++ (if scalarEq ke k then [e] else []) := by
  induction acc with
  | nil =>
    by_cases h : scalarEq ke k = true <;>
      simp [group_insert, group_lookup, glookup, h]
  | cons kv rest ih =>
    obtain ⟨k2, es⟩ := kv
    by_cases h1 : scalarEq k2 ke = true
    · have hk2 : k2 = ke := scalarEq_sound h1
      subst hk2
      by_cases h2 : scalarEq k2 k = true <;>
        simp [group_insert, group_lookup, glookup, h1, h2]
    · by_cases h2 : scalarEq k2 k = true
      · have hk2 : k2 = k := scalarEq_sound h2
        have hkek : scalarEq ke k = false := by
          rw [← hk2, scalarEq_symm]
          exact Bool.eq_false_iff.mpr h1
        simp [group_insert, group_lookup, glookup,
          Bool.eq_false_iff.mpr h1, h2, hkek]
      · have := ih
        simp only [group_lookup] at this
        simp [group_insert, group_lookup, glookup,
          Bool.eq_false_iff.mpr h1, h2, this]

lemma group_elements_lookup (es : List Json) :
    ∀ (acc g : List (Json × List Json)), group_elements es acc = .ok g →
      ∀ k, group_lookup g k =
        group_lookup acc k ++ es.filter (fun e => scalarEq (tagOf e) k) := by
  induction es with
  | nil =>
    intro acc g h k
    simp only [group_elements] at h
    cases h
    simp
  | cons e rest ih =>
    intro acc g h k
    rcases hs : group_step acc e with err | acc2
    · simp only [group_elements, hs] at h
      cases h
    · simp only [group_elements, hs] at h
      have hstep : acc2 = group_insert acc (tagOf e) e := by
        unfold group_step at hs
        cases e with
        | obj kvs =>
          simp only [py_dict_get] at hs
          split at hs
          · cases hs; rfl
          · cases hs
        | null => simp [py_dict_get] at hs
        | bool b => simp [py_dict_get] at hs
        | num n => simp [py_dict_get] at hs
        | str s => simp [py_dict_get] at hs
        | arr xs => simp [py_dict_get] at hs
      subst hstep
      rw [ih _ _ h k, group_insert_lookup]
      by_cases hp : scalarEq (tagOf e) k = true <;>
        simp [List.filter_cons, hp]

/-- A JSON value Python's len() accepts. -/
def Sized : Json → Bool
  | .str _ => true
  | .arr _ => true
  | .obj _ => true
  | _ => false

/-- The paper record's metadata field, when present, is a dict (what the
documented wire contract guarantees and print_paper_summary relies on). -/
def MetaOk (kvs : List (String × Json)) : Bool :=
  match jlookup kvs "metadata" with
  | none => true
  | some (.obj _) => true
  | some _ => false

/-- The paper record's bboxes field, when present, has a length. -/
def BboxOk (kvs : List (String × Json)) : Bool :=
  match jlookup kvs "bboxes" with
  | none => true
  | some b => Sized b

lemma print_paper_summary_empty (kvs : List (String × Json)) (pid : Json)
    (hid : jlookup kvs "id" = some pid)
    (hmeta : MetaOk kvs = true) (hbbox : BboxOk kvs = true) :
    ∃ s, print_paper_summary (Json.obj kvs) [] = .ok s ∧
      s.claims = [] ∧ s.evidence = [] ∧
      s.noClaims = true ∧ s.noEvidence = true := by
  have hm : ∃ mkvs, (jlookup kvs "metadata").getD (Json.obj []) =
      Json.obj mkvs := by
    unfold MetaOk at hmeta
    rcases h : jlookup kvs "metadata" with _ | v
    · exact ⟨[], by simp [h]⟩
    · rw [h] at hmeta
      cases v
      case obj mk2 => exact ⟨mk2, by simp [h]⟩
      all_goals simp at hmeta
  have hb : ∃ n, py_len ((jlookup kvs "bboxes").getD (Json.arr [])) =
      .ok n := by
    unfold BboxOk at hbbox
    rcases h : jlookup kvs "bboxes" with _ | v
    · exact ⟨0, by simp [h, py_len]⟩
    · rw [h] at hbbox
      cases v
      case str s => exact ⟨s.length, by simp [h, py_len]⟩
      case arr xs => exact ⟨xs.length, by simp [h, py_len]⟩
      case obj kvs2 => exact ⟨kvs2.length, by simp [h, py_len]⟩
      all_goals simp [Sized] at hbbox
  obtain ⟨mkvs, hm⟩ := hm
  obtain ⟨n, hb⟩ := hb
  have hcomp : print_paper_summary (Json.obj kvs) [] = .ok
      ⟨(jlookup mkvs "title").getD (.str "Untitled"), pid,
        (jlookup mkvs "original_filename").getD (.str "N/A"),
        [], [], n, [], true, [], true⟩ := by
    simp [print_paper_summary, py_dict_getD, py_index, hid, hm, hb,
      filter_by_type, Bind.bind, Except.bind, pure, Except.pure]
  exact ⟨_, hcomp, rfl, rfl, rfl, rfl⟩

/-! Claim theorems. -/

/-- C3 counterexample: the claim says every non-200 identity response makes
the authenticator fail and never return a token.  A 201 response whose body
carries an access_token refutes it: raise_for_status does not raise inside
the 2xx range, so get_jwt_token falls through and returns the token. -/
theorem claim_C3_counterexample :
    (get_jwt_token "user"
      ⟨201, "created", some (.obj [("access_token", .str "tok")])⟩).2 =
      .ok (.str "tok") ∧
    (201 : Nat) ≠ 200 := ⟨rfl, by decide⟩

/-- C3 amended: every non-200 identity response has its status code and raw
body printed, and every response with a status outside the 2xx range fails
with an HTTP status error carrying that status and body, which propagates to
the caller; a non-200 status inside 2xx is not raised on. -/
theorem claim_C3_amended (email : String) (resp : HttpResponse)
    (h : resp.status ≠ 200) :
    AuthEvent.failPrint resp.status resp.text ∈ (get_jwt_token email resp).1 ∧
    (¬(200 ≤ resp.status ∧ resp.status ≤ 299) →
      (get_jwt_token email resp).2 =
        .error (.httpStatusError resp.status resp.text)) := by
  constructor
  · unfold get_jwt_token
    rw [if_neg h]
    rcases hr : raise_for_status resp with e | u
    · simp
    · obtain ⟨t, ht⟩ := auth_finish_fst
        [AuthEvent.start email, AuthEvent.failPrint resp.status resp.text] resp
      simp [hr, ht]
  · intro h2
    have hrr : raise_for_status resp =
        .error (.httpStatusError resp.status resp.text) := by
      unfold raise_for_status
      rw [if_neg h2]
    unfold get_jwt_token
    rw [if_neg h]
    simp [hrr]

/-- C3 witness: a 404 identity response is printed with its status and body
and the call fails with the corresponding HTTP status error. -/
theorem claim_C3_witness :
    AuthEvent.failPrint 404 "denied" ∈
      (get_jwt_token "user" ⟨404, "denied", none⟩).1 ∧
    (get_jwt_token "user" ⟨404, "denied", none⟩).2 =
      .error (.httpStatusError 404 "denied") := by
  have h := claim_C3_amended "user" ⟨404, "denied", none⟩ (by decide)
  exact ⟨h.1, h.2 (by decide)⟩

/-- C4 counterexample: the claim says a 200 response whose body contains an
access_token field yields exactly that token string.  A present but empty
access_token refutes it: Python truthiness sends the empty string into the
ValueError branch. -/
theorem claim_C4_counterexample :
    (get_jwt_token "user"
      ⟨200, "resp", some (.obj [("access_token", .str "")])⟩).2 =
      .error (.valueError "No access token in response") ∧
    (get_jwt_token "user"
      ⟨200, "resp", some (.obj [("access_token", .str "")])⟩).2 ≠
      .ok (.str "") := by
  have h1 : (get_jwt_token "user"
      ⟨200, "resp", some (.obj [("access_token", .str "")])⟩).2 =
      .error (.valueError "No access token in response") := rfl
  refine ⟨h1, ?_⟩
  rw [h1]
  intro h2
  exact Except.noConfusion h2

/-- C4 amended: on a 200 response whose JSON body contains a non-empty
access_token string the authenticator returns exactly that string; when the
field is absent, or present but empty, it raises ValueError, an
authentication error distinct from the network-error type. -/
theorem claim_C4_amended :
    (∀ (email text : String) (kvs : List (String × Json)) (t : String),
      jlookup kvs "access_token" = some (.str t) → t ≠ "" →
      (get_jwt_token email ⟨200, text, some (.obj kvs)⟩).2 = .ok (.str t)) ∧
    (∀ (email text : String) (kvs : List (String × Json)),
      jlookup kvs "access_token" = none →
      (get_jwt_token email ⟨200, text, some (.obj kvs)⟩).2 =
        .error (.valueError "No access token in response")) ∧
    (∀ (email text : String) (kvs : List (String × Json)),
      jlookup kvs "access_token" = some (.str "") →
      (get_jwt_token email ⟨200, text, some (.obj kvs)⟩).2 =
        .error (.valueError "No access token in response")) ∧
    (∀ (m1 m2 : String), PyError.valueError m1 ≠ PyError.transportError m2) := by
  refine ⟨?_, ?_, ?_, ?_⟩
  · intro email text kvs t hl ht
    simp [get_jwt_token, auth_finish, response_json, py_dict_get, hl,
      truthy, ht]
  · intro email text kvs hl
    simp [get_jwt_token, auth_finish, response_json, py_dict_get, hl, truthy]
  · intro email text kvs hl
    simp [get_jwt_token, auth_finish, response_json, py_dict_get, hl, truthy]
  · intro m1 m2
    simp

/-- C4 witness: a concrete 200 body with a non-empty token returns it, one
without the field and one with an empty token both raise the ValueError. -/
theorem claim_C4_witness :
    (get_jwt_token "u" ⟨200, "", some (.obj [("access_token", .str "jwt1")])⟩).2
      = .ok (.str "jwt1") ∧
    (get_jwt_token "u" ⟨200, "", some (.obj [("other", .num 1)])⟩).2 =
      .error (.valueError "No access token in response") ∧
    (get_jwt_token "u" ⟨200, "", some (.obj [("access_token", .str "")])⟩).2 =
      .error (.valueError "No access token in response") := by
  refine ⟨?_, ?_, ?_⟩
  · exact claim_C4_amended.1 "u" "" [("access_token", .str "jwt1")] "jwt1"
      rfl (by decide)
  · exact claim_C4_amended.2.1 "u" "" [("other", .num 1)] rfl
  · exact claim_C4_amended.2.2.1 "u" "" [("access_token", .str "")] rfl

/-- C10: a 200 identity response whose body holds an empty access_token
string fails with the same ValueError as an absent field, and the
authenticator never returns an empty token string. -/
theorem claim_C10 :
    (∀ (email text : String) (kvs : List (String × Json)),
      jlookup kvs "access_token" = some (.str "") →
      (get_jwt_token email ⟨200, text, some (.obj kvs)⟩).2 =
        .error (.valueError "No access token in response")) ∧
    (∀ (email text : String) (kvs : List (String × Json)),
      jlookup kvs "access_token" = none →
      (get_jwt_token email ⟨200, text, some (.obj kvs)⟩).2 =
        .error (.valueError "No access token in response")) ∧
    (∀ (email : String) (resp : HttpResponse) (s : String),
      (get_jwt_token email resp).2 = .ok (.str s) → s ≠ "") := by
  refine ⟨?_, ?_, ?_⟩
  · intro email text kvs hl
    simp [get_jwt_token, auth_finish, response_json, py_dict_get, hl, truthy]
  · intro email text kvs hl
    simp [get_jwt_token, auth_finish, response_json, py_dict_get, hl, truthy]
  · intro email resp s h
    have ht := get_jwt_token_ok_truthy email resp _ h
    simpa [truthy] using ht

/-- C10 witness: concrete empty-token and missing-token responses produce
the identical ValueError, and a concrete successful call returns a non-empty
token. -/
theorem claim_C10_witness :
    (get_jwt_token "u" ⟨200, "b", some (.obj [("access_token", .str "")])⟩).2 =
      .error (.valueError "No access token in response") ∧
    (get_jwt_token "u" ⟨200, "b", some (.obj [])⟩).2 =
      .error (.valueError "No access token in response") ∧
    "jwt1" ≠ "" := by
  refine ⟨?_, ?_, ?_⟩
  · exact claim_C10.1 "u" "b" [("access_token", .str "")] rfl
  · exact claim_C10.2.1 "u" "b" [] rfl
  · exact claim_C10.2.2 "u" ⟨200, "b",
      some (.obj [("access_token", .str "jwt1")])⟩ "jwt1" rfl

/-- C7: a non-existent file path is reported before any httpx.post call is
issued (zero posts counted): the single-file uploader raises
FileNotFoundError, the batch uploader returns None instead of raising, and
the file-not-found error is a different error kind than an HTTP status
error. -/
theorem claim_C7 :
    (∀ (pdfPath : String) (tr : Transport),
      upload_paper_with_jwt false pdfPath tr =
        (0, .error (.fileNotFoundError ("PDF not found: " ++ pdfPath)))) ∧
    (∀ tr : Transport, upload_paper_with_jwt_batch false tr = (0, none)) ∧
    (∀ (p b : String) (s : Nat),
      PyError.fileNotFoundError p ≠ PyError.httpStatusError s b) := by
  refine ⟨?_, ?_, ?_⟩
  · intro pdfPath tr
    simp [upload_paper_with_jwt]
  · intro tr
    simp [upload_paper_with_jwt_batch]
  · intro p b s
    simp

/-- C1 counterexample: the claim says a single-file run on a missing path
and a batch run on a missing directory exit with status 1, and that status 0
occurs only on full success.  Both mains catch those exceptions, print them
and fall through without sys.exit, so with valid configuration both runs
exit 0. -/
theorem claim_C1_counterexample :
    upload_paper_main_exit ⟨some "su", some "k", some "em", some "pw"⟩ 2
      ⟨200, "", some (.obj [("access_token", .str "tok")])⟩ "missing.pdf"
      false (.exn "unused") = 0 ∧
    upload_directory_main_exit ⟨some "su", some "k", some "em", some "pw"⟩ 2
      ⟨200, "", some (.obj [("access_token", .str "tok")])⟩ "nodir"
      false true [] 1 = 0 ∧
    (0 : Nat) ≠ 1 := ⟨rfl, rfl, by decide⟩

/-- C1 amended: a batch that completes exits 1 exactly when it recorded at
least one failure; but a missing single-file path and a missing batch
directory are caught and printed, and those runs exit 0, so exit status 0
does not imply full success.  (Missing configuration or missing CLI
arguments still exit 1, per the definitions of the two main embeddings.) -/
theorem claim_C1_amended :
    (∀ (c : EnvConfig) (argc : Nat) (authResp : HttpResponse) (dir : String)
        (files : List FileSpec) (delay : Rat) (tok : Json)
        (res : BatchResult),
      missing_vars c = [] → 2 ≤ argc →
      (get_jwt_token (c.email.getD "") authResp).2 = .ok tok →
      upload_directory dir true true files delay = .ok res →
      upload_directory_main_exit c argc authResp dir true true files delay =
        (if res.failed > 0 then 1 else 0)) ∧
    (∀ (c : EnvConfig) (argc : Nat) (authResp : HttpResponse)
        (pdfPath : String) (tr : Transport) (tok : Json),
      missing_vars c = [] → 2 ≤ argc →
      (get_jwt_token (c.email.getD "") authResp).2 = .ok tok →
      upload_paper_main_exit c argc authResp pdfPath false tr = 0) ∧
    (∀ (c : EnvConfig) (argc : Nat) (authResp : HttpResponse) (dir : String)
        (isDir : Bool) (files : List FileSpec) (delay : Rat) (tok : Json),
      missing_vars c = [] → 2 ≤ argc →
      (get_jwt_token (c.email.getD "") authResp).2 = .ok tok →
      upload_directory_main_exit c argc authResp dir false isDir files delay
        = 0) := by
  refine ⟨?_, ?_, ?_⟩
  · intro c argc authResp dir files delay tok res h1 h2 h3 h4
    unfold upload_directory_main_exit
    rw [if_neg (by simp [h1]), if_neg (by omega), h3, h4]
  · intro c argc authResp pdfPath tr tok h1 h2 h3
    unfold upload_paper_main_exit
    rw [if_neg (by simp [h1]), if_neg (by omega), h3]
    rcases (upload_paper_with_jwt false pdfPath tr).2 with e | v <;> rfl
  · intro c argc authResp dir isDir files delay tok h1 h2 h3
    unfold upload_directory_main_exit
    rw [if_neg (by simp [h1]), if_neg (by omega), h3]
    have : upload_directory dir false isDir files delay =
        .error (.valueError ("Directory not found: " ++ dir)) := by
      simp [upload_directory]
    rw [this]

/-- C1 witness: a completed one-file batch whose upload failed exits 1; a
single-file run on a missing path exits 0; a batch run on a missing
directory exits 0. -/
theorem claim_C1_witness :
    upload_directory_main_exit ⟨some "su", some "k", some "em", some "pw"⟩ 2
      ⟨200, "", some (.obj [("access_token", .str "tok")])⟩ "d" true true
      [⟨"a.pdf", true, .resp ⟨500, "boom", none⟩⟩] 1 = 1 ∧
    upload_paper_main_exit ⟨some "su", some "k", some "em", some "pw"⟩ 2
      ⟨200, "", some (.obj [("access_token", .str "tok")])⟩ "missing2.pdf"
      false (.exn "unused2") = 0 ∧
    upload_directory_main_exit ⟨some "su", some "k", some "em", some "pw"⟩ 2
      ⟨200, "", some (.obj [("access_token", .str "tok")])⟩ "nodir2"
      false false [] 1 = 0 := by
  refine ⟨?_, ?_, ?_⟩
  · have h := claim_C1_amended.1 ⟨some "su", some "k", some "em", some "pw"⟩
      2 ⟨200, "", some (.obj [("access_token", .str "tok")])⟩ "d"
      [⟨"a.pdf", true, .resp ⟨500, "boom", none⟩⟩] 1 (.str "tok")
      ⟨1, 0, 1, [⟨"a.pdf", none, "failed"⟩], 1, []⟩ rfl (by decide) rfl rfl
    simpa using h
  · exact claim_C1_amended.2.1 ⟨some "su", some "k", some "em", some "pw"⟩
      2 ⟨200, "", some (.obj [("access_token", .str "tok")])⟩ "missing2.pdf"
      (.exn "unused2") (.str "tok") rfl (by decide) rfl
  · exact claim_C1_amended.2.2 ⟨some "su", some "k", some "em", some "pw"⟩
      2 ⟨200, "", some (.obj [("access_token", .str "tok")])⟩ "nodir2"
      false [] 1 (.str "tok") rfl (by decide) rfl

/-- C2 counterexample: the claim says any response body shape is recorded
and the loop continues.  A 200 response whose truthy body lacks the data key
makes the loop raise KeyError at results recording, aborting the whole batch
(no summary is returned, the second file is never processed). -/
theorem claim_C2_counterexample :
    upload_directory "d" true true
      [⟨"a.pdf", true, .resp ⟨200, "", some (.obj [("ok", .num 1)])⟩⟩,
       ⟨"b.pdf", true, .resp ⟨200, "",
         some (.obj [("data",
           .obj [("paper_id", .str "p1"), ("status", .str "s")])])⟩⟩] 1 =
      .error (.keyError "data") := rfl

/-- C2 amended: for every file whose outcome is handled (missing file,
transport exception, non-success status, falsy body, or a truthy body with
the expected data/paper_id/status shape) the loop records exactly one
outcome per file, in order, and never aborts; only a truthy success body
lacking that shape raises out of the loop. -/
theorem claim_C2_amended (dir : String) (files : List FileSpec)
    (delay : Rat) (h : ∀ f ∈ files, HandledFile f = true) :
    ∃ r, upload_directory dir true true files delay = .ok r ∧
      r.uploads = files.map recordOf ∧
      r.uploads.length = files.length := by
  by_cases hne : files = []
  · subst hne
    exact ⟨⟨0, 0, 0, [], 0, []⟩, by simp [upload_directory], rfl, rfl⟩
  · have hempty : files.isEmpty = false := by
      simpa [List.isEmpty_iff] using hne
    have hok : upload_directory dir true true files delay = .ok
        ⟨files.length, countS files, countF files, files.map recordOf,
          files.length, List.replicate (files.length - 1) delay⟩ := by
      unfold upload_directory
      rw [if_neg (by simp), if_neg (by simp), if_neg (by simp [hempty])]
      rw [upload_loop_spec delay files ⟨0, 0, [], 0, []⟩ h]
      simp
    exact ⟨_, hok, by simp, by simp⟩

/-- C2 witness: a four-file batch covering a missing file, an HTTP failure,
a transport exception and a success is fully recorded in order. -/
theorem claim_C2_witness :
    ∃ r, upload_directory "d" true true
      [⟨"a.pdf", false, .exn "unused"⟩,
       ⟨"b.pdf", true, .resp ⟨500, "boom", none⟩⟩,
       ⟨"c.pdf", true, .exn "timeout"⟩,
       ⟨"d.pdf", true, .resp ⟨201, "",
         some (.obj [("data",
           .obj [("paper_id", .str "p9"), ("status", .str "queued")])])⟩⟩] 1
      = .ok r ∧
      r.uploads =
        [⟨"a.pdf", false, .exn "unused"⟩,
         ⟨"b.pdf", true, .resp ⟨500, "boom", none⟩⟩,
         ⟨"c.pdf", true, .exn "timeout"⟩,
         ⟨"d.pdf", true, .resp ⟨201, "",
           some (.obj [("data",
             .obj [("paper_id", .str "p9"),
               ("status", .str "queued")])])⟩⟩].map recordOf ∧
      r.uploads.length = 4 := by
  have h := claim_C2_amended "d"
    [⟨"a.pdf", false, .exn "unused"⟩,
     ⟨"b.pdf", true, .resp ⟨500, "boom", none⟩⟩,
     ⟨"c.pdf", true, .exn "timeout"⟩,
     ⟨"d.pdf", true, .resp ⟨201, "",
       some (.obj [("data",
         .obj [("paper_id", .str "p9"), ("status", .str "queued")])])⟩⟩] 1
    (by decide)
  simpa using h

/-- C5: over a batch of N enumerated files of which K have a failing upload
outcome (and the rest a well-shaped success), the summary satisfies
total = N, success = N - K, failed = K, total = success + failed, and the
process exit status is 1 exactly when K > 0. -/
theorem claim_C5 (c : EnvConfig) (argc : Nat) (authResp : HttpResponse)
    (dir : String) (files : List FileSpec) (delay : Rat) (tok : Json)
    (h1 : missing_vars c = []) (h2 : 2 ≤ argc)
    (h3 : (get_jwt_token (c.email.getD "") authResp).2 = .ok tok)
    (h : ∀ f ∈ files, HandledFile f = true) :
    ∃ r, upload_directory dir true true files delay = .ok r ∧
      r.total = files.length ∧
      r.failed = countF files ∧
      r.success = files.length - countF files ∧
      r.total = r.success + r.failed ∧
      (upload_directory_main_exit c argc authResp dir true true files delay
        = 1 ↔ 0 < countF files) := by
  have hsum := countS_add_countF files
  by_cases hne : files = []
  · subst hne
    refine ⟨⟨0, 0, 0, [], 0, []⟩, by simp [upload_directory], rfl, rfl, rfl,
      rfl, ?_⟩
    unfold upload_directory_main_exit
    rw [if_neg (by simp [h1]), if_neg (by omega), h3]
    simp [upload_directory, countF]
  · have hempty : files.isEmpty = false := by
      simpa [List.isEmpty_iff] using hne
    have hok : upload_directory dir true true files delay = .ok
        ⟨files.length, countS files, countF files, files.map recordOf,
          files.length, List.replicate (files.length - 1) delay⟩ := by
      unfold upload_directory
      rw [if_neg (by simp), if_neg (by simp), if_neg (by simp [hempty])]
      rw [upload_loop_spec delay files ⟨0, 0, [], 0, []⟩ h]
      simp
    refine ⟨_, hok, rfl, rfl,
      by show countS files = files.length - countF files; omega,
      by show files.length = countS files + countF files; omega, ?_⟩
    unfold upload_directory_main_exit
    rw [if_neg (by simp [h1]), if_neg (by omega), h3, hok]
    by_cases hK : 0 < countF files
    · simp [hK]
    · have h0 : countF files = 0 := by omega
      simp [h0]

/-- C5 witness: a concrete two-file batch with one failure yields
total = 2, success = 1, failed = 1 and exit status 1. -/
theorem claim_C5_witness :
    ∃ r, upload_directory "d" true true
      [⟨"a.pdf", true, .resp ⟨200, "",
         some (.obj [("data",
           .obj [("paper_id", .str "p1"), ("status", .str "done")])])⟩⟩,
       ⟨"b.pdf", true, .resp ⟨404, "nf", none⟩⟩] 1 = .ok r ∧
      r.total = 2 ∧
      r.failed = countF
        [⟨"a.pdf", true, .resp ⟨200, "",
           some (.obj [("data",
             .obj [("paper_id", .str "p1"), ("status", .str "done")])])⟩⟩,
         ⟨"b.pdf", true, .resp ⟨404, "nf", none⟩⟩] ∧
      r.success = 2 - countF
        [⟨"a.pdf", true, .resp ⟨200, "",
           some (.obj [("data",
             .obj [("paper_id", .str "p1"), ("status", .str "done")])])⟩⟩,
         ⟨"b.pdf", true, .resp ⟨404, "nf", none⟩⟩] ∧
      r.total = r.success + r.failed ∧
      (upload_directory_main_exit ⟨some "su", some "k", some "em", some "pw"⟩
        2 ⟨200, "", some (.obj [("access_token", .str "tok")])⟩ "d" true true
        [⟨"a.pdf", true, .resp ⟨200, "",
           some (.obj [("data",
             .obj [("paper_id", .str "p1"), ("status", .str "done")])])⟩⟩,
         ⟨"b.pdf", true, .resp ⟨404, "nf", none⟩⟩] 1 = 1 ↔
        0 < countF
          [⟨"a.pdf", true, .resp ⟨200, "",
             some (.obj [("data",
               .obj [("paper_id", .str "p1"), ("status", .str "done")])])⟩⟩,
           ⟨"b.pdf", true, .resp ⟨404, "nf", none⟩⟩]) :=
  claim_C5 ⟨some "su", some "k", some "em", some "pw"⟩ 2
    ⟨200, "", some (.obj [("access_token", .str "tok")])⟩ "d"
    [⟨"a.pdf", true, .resp ⟨200, "",
       some (.obj [("data",
         .obj [("paper_id", .str "p1"), ("status", .str "done")])])⟩⟩,
     ⟨"b.pdf", true, .resp ⟨404, "nf", none⟩⟩] 1 (.str "tok") rfl
    (by decide) rfl (by decide)

/-- C6 counterexample: the claim says every batch of N enumerated files
(N at least 1) performs exactly N upload attempts and exactly N - 1 delays,
unconditionally of the upload's outcome.  A two-file batch whose first file
gets a 200 response with a truthy body lacking the data key refutes it: the
loop raises KeyError while recording the first file, before its sleep, so
the run aborts with one post and zero sleeps instead of two and one, and no
result with the claimed attempt and sleep counts exists. -/
theorem claim_C6_counterexample :
    upload_directory "d" true true
      [⟨"m1.pdf", true, .resp ⟨200, "", some (.obj [("status", .num 7)])⟩⟩,
       ⟨"m2.pdf", true, .resp ⟨200, "",
         some (.obj [("data",
           .obj [("paper_id", .str "q2"), ("status", .str "done")])])⟩⟩] 1 =
      .error (.keyError "data") ∧
    ¬ ∃ r, upload_directory "d" true true
      [⟨"m1.pdf", true, .resp ⟨200, "", some (.obj [("status", .num 7)])⟩⟩,
       ⟨"m2.pdf", true, .resp ⟨200, "",
         some (.obj [("data",
           .obj [("paper_id", .str "q2"), ("status", .str "done")])])⟩⟩] 1 =
        .ok r ∧ r.attempts = 2 ∧ r.sleeps.length = 1 := by
  have h1 : upload_directory "d" true true
      [⟨"m1.pdf", true, .resp ⟨200, "", some (.obj [("status", .num 7)])⟩⟩,
       ⟨"m2.pdf", true, .resp ⟨200, "",
         some (.obj [("data",
           .obj [("paper_id", .str "q2"), ("status", .str "done")])])⟩⟩] 1 =
      .error (.keyError "data") := rfl
  refine ⟨h1, ?_⟩
  rintro ⟨r, hr, _, _⟩
  rw [h1] at hr
  exact Except.noConfusion hr

/-- C6 amended: a batch over N enumerated files (N at least 1) in which
every per-file outcome is handled (any failure kind, or a success body with
the documented data/paper_id/status shape) performs exactly N upload calls
and exactly N - 1 inter-upload sleeps, each equal to the configured delay,
whatever mix of success and failure outcomes the files have; the delay
parameter defaults to one second.  A truthy success body without that shape
instead aborts the loop mid-batch (see the counterexample), cutting the
attempt and delay counts short. -/
theorem claim_C6 (dir : String) (files : List FileSpec) (delay : Rat)
    (hne : files ≠ []) (h : ∀ f ∈ files, HandledFile f = true) :
    ∃ r, upload_directory dir true true files delay = .ok r ∧
      r.attempts = files.length ∧
      r.sleeps = List.replicate (files.length - 1) delay ∧
      r.sleeps.length = files.length - 1 ∧
      (∀ d ∈ r.sleeps, d = delay) ∧
      upload_directory_default_delay = 1 := by
  have hempty : files.isEmpty = false := by
    simpa [List.isEmpty_iff] using hne
  have hok : upload_directory dir true true files delay = .ok
      ⟨files.length, countS files, countF files, files.map recordOf,
        files.length, List.replicate (files.length - 1) delay⟩ := by
    unfold upload_directory
    rw [if_neg (by simp), if_neg (by simp), if_neg (by simp [hempty])]
    rw [upload_loop_spec delay files ⟨0, 0, [], 0, []⟩ h]
    simp
  refine ⟨_, hok, rfl, rfl, by simp, ?_, rfl⟩
  intro d hd
  exact List.eq_of_mem_replicate hd

/-- C6 witness: a concrete three-file batch issues three upload calls and
two sleeps of the configured half-second delay. -/
theorem claim_C6_witness :
    ∃ r, upload_directory "d" true true
      [⟨"a.pdf", false, .exn "unused"⟩,
       ⟨"b.pdf", true, .resp ⟨500, "boom", none⟩⟩,
       ⟨"c.pdf", true, .resp ⟨200, "",
         some (.obj [("data",
           .obj [("paper_id", .str "p3"), ("status", .str "done")])])⟩⟩]
      (1 / 2) = .ok r ∧
      r.attempts = 3 ∧
      r.sleeps = List.replicate 2 (1 / 2 : Rat) ∧
      r.sleeps.length = 2 ∧
      (∀ d ∈ r.sleeps, d = (1 / 2 : Rat)) ∧
      upload_directory_default_delay = 1 := by
  have h := claim_C6 "d"
    [⟨"a.pdf", false, .exn "unused"⟩,
     ⟨"b.pdf", true, .resp ⟨500, "boom", none⟩⟩,
     ⟨"c.pdf", true, .resp ⟨200, "",
       some (.obj [("data",
         .obj [("paper_id", .str "p3"), ("status", .str "done")])])⟩⟩]
    (1 / 2) (by exact List.cons_ne_nil _ _) (by decide)
  simpa using h

/-- C8: after a successful extract fetch (status 200, parseable body), the
first recorded event of the run is the write of the full parsed response to
paper_extracts.json, before any summarization event, and the persisted
content is exactly the response body the server supplied. -/
theorem claim_C8 (r : HttpResponse) (body : Json) (h1 : r.status = 200)
    (h2 : r.jsonBody = some body) :
    ∃ rest, (extracts_run (.resp r)).1 =
      FetchEvent.savedFile "paper_extracts.json" body :: rest := by
  rcases hd : extracts_display body with ⟨evs, err⟩
  refine ⟨evs, ?_⟩
  unfold extracts_run get_paper_extracts extracts_main_core
  simp [h1, response_json, h2, hd]

/-- C8 witness: a concrete successful fetch writes its body to the file as
the first event. -/
theorem claim_C8_witness :
    ∃ rest, (extracts_run (.resp
      ⟨200, "raw", some (.obj [("data", .obj [])])⟩)).1 =
      FetchEvent.savedFile "paper_extracts.json"
        (.obj [("data", .obj [])]) :: rest :=
  claim_C8 ⟨200, "raw", some (.obj [("data", .obj [])])⟩
    (.obj [("data", .obj [])]) rfl rfl

/-- C9: when the grouping loop over the flattened elements list succeeds,
every key maps to exactly the elements carrying that paper_id tag in their
original order, and a well-formed returned paper with no matching elements
is summarized with empty claim and evidence lists and both still-processing
flags set, not treated as an error. -/
theorem claim_C9 (es : List Json) (g : List (Json × List Json))
    (hg : group_elements es [] = .ok g) :
    (∀ k, group_lookup g k = es.filter (fun e => scalarEq (tagOf e) k)) ∧
    (∀ (kvs : List (String × Json)) (pid : Json),
      jlookup kvs "id" = some pid → MetaOk kvs = true → BboxOk kvs = true →
      es.filter (fun e => scalarEq (tagOf e) pid) = [] →
      ∃ s, print_paper_summary (Json.obj kvs) (group_lookup g pid) = .ok s ∧
        s.claims = [] ∧ s.evidence = [] ∧ s.noClaims = true ∧
        s.noEvidence = true) := by
  have hpart := group_elements_lookup es [] g hg
  constructor
  · intro k
    simpa [group_lookup, glookup] using hpart k
  · intro kvs pid hid hmeta hbbox hfilt
    have hempty : group_lookup g pid = [] := by
      have hp := hpart pid
      simpa [group_lookup, glookup, hfilt] using hp
    rw [hempty]
    exact print_paper_summary_empty kvs pid hid hmeta hbbox

/-- C9 witness: with elements only for paper A, the group under A holds both
A-elements in order, and paper B with no elements is summarized with empty
claim and evidence lists without error. -/
theorem claim_C9_witness :
    group_lookup [(Json.str "A",
        [Json.obj [("paper_id", .str "A"), ("type", .str "claim")],
         Json.obj [("paper_id", .str "A"), ("type", .str "evidence")]])]
      (Json.str "A") =
      List.filter (fun e => scalarEq (tagOf e) (Json.str "A"))
        [Json.obj [("paper_id", .str "A"), ("type", .str "claim")],
         Json.obj [("paper_id", .str "A"), ("type", .str "evidence")]] ∧
    ∃ s, print_paper_summary (Json.obj [("id", .str "B")])
        (group_lookup [(Json.str "A",
          [Json.obj [("paper_id", .str "A"), ("type", .str "claim")],
           Json.obj [("paper_id", .str "A"), ("type", .str "evidence")]])]
          (Json.str "B")) = .ok s ∧
      s.claims = [] ∧ s.evidence = [] ∧ s.noClaims = true ∧
      s.noEvidence = true := by
  have h := claim_C9
    [Json.obj [("paper_id", .str "A"), ("type", .str "claim")],
     Json.obj [("paper_id", .str "A"), ("type", .str "evidence")]]
    [(Json.str "A",
      [Json.obj [("paper_id", .str "A"), ("type", .str "claim")],
       Json.obj [("paper_id", .str "A"), ("type", .str "evidence")]])]
    rfl
  exact ⟨h.1 (Json.str "A"),
    h.2 [("id", .str "B")] (Json.str "B") rfl rfl rfl rfl⟩

end ApiUsage
